import Mathlib

/-!
Shallow embedding of the identity and ownership-authorization core of the
conduit backend (Rust/axum/sqlx), covering:

* the token codec `Claims::with_sub_to_jwt` / `Claims::from_jwt` and the two
  auth middleware entry points `auth` and `maybe_auth` (src/http/auth.rs);
* the credential functions `hash_password` / `verify_password` and the login
  handler `login_user` (src/http/users.rs);
* the ownership-guard handlers `delete_article`, `update_article`
  (src/http/article/mod.rs) and `delete_comment`
  (src/http/article/comments.rs), modelled over an explicit relational store.

Cryptographic material is abstracted structurally: an RSA key is identified
by the key pair it belongs to, an argon2 digest by the (salt, plaintext) pair
it is derived from, so that signing/derivation are injective and verification
is equality, which is the contract the libraries provide.  Database queries
are modelled over lists of rows with Postgres snapshot semantics: every
subquery of one statement, including the probes accompanying a data-modifying
CTE, reads the state as it was when the statement began.
-/

namespace Conduit

/-- Modelled from the spec: the error type lives in src/http/errors.rs, which
is not among the provided sources.  The variants are exactly those the
provided handlers construct (`Error::Unauthorized`, `Error::Forbidden`,
`Error::NotFound`, `Error::unprocessable_entity`), plus `Internal` for the
`anyhow` errors that section 7 of the spec classifies as opaque server
faults (malformed stored credential, store failure). -/
inductive Error where
  | Unauthorized
  | Forbidden
  | NotFound
  | UnprocessableEntity (errors : List (String × String))
  | Internal (msg : String)
  deriving DecidableEq, Repr

/-- Error::unprocessable_entity, the constructor helper the handlers call
with a list of (field, message) pairs. -/
def Error.unprocessable_entity (errors : List (String × String)) : Error :=
  Error.UnprocessableEntity errors

/-- DEFAULT_SESSION_LENGTH (src/http/auth.rs:14), time::Duration::weeks(2),
counted in seconds as unix timestamps subtract. -/
def DEFAULT_SESSION_LENGTH : Nat := 14 * 24 * 60 * 60

/-- Default leeway in seconds that jsonwebtoken's Validation::new applies
when it checks the exp claim. -/
def JWT_LEEWAY : Nat := 60

/-- Config (src/config.rs): the PEM string fields are abstracted; a key is
identified by the key pair it belongs to, so the private and the public half
of one pair carry the same identifier and signature verification is identifier
equality. -/
structure Config where
  rsa_private_key : Nat
  rsa_public_key : Nat
  deriving DecidableEq, Repr

/-- Claims (src/http/auth.rs:18-23): the JWT payload.  `sub` is the user's
Uuid, modelled as a Nat; `iat` and `exp` are unix timestamps (usize in the
source). -/
structure Claims where
  sub : Nat
  iat : Nat
  exp : Nat
  deriving DecidableEq, Repr

/-- Model of the serialized JWT text that follows the scheme label: either a
well-formed token, kept as its claims payload together with the identifier of
the RSA key pair that signed it (base64 and signature bytes abstracted), or
text the jsonwebtoken parser rejects. -/
inductive Jwt where
  | signed (claims : Claims) (signedWith : Nat)
  | malformed (raw : String)
  deriving DecidableEq, Repr

/-- Model of jsonwebtoken::encode with Header::new(Algorithm::RS256) under
the private key: serialize the claims and sign them. -/
def jwtEncode (claims : Claims) (key : Nat) : Jwt :=
  Jwt.signed claims key

/-- Model of jsonwebtoken::decode with Validation::new(Algorithm::RS256)
under the public key at time `now`: unparseable text fails; a signed token is
accepted exactly when its signature verifies under `key` (meaning the same
key pair signed it) and the default-validated exp claim has not passed by
more than the leeway. -/
def jwtDecode (t : Jwt) (key : Nat) (now : Nat) : Option Claims :=
  match t with
  | Jwt.malformed _ => none
  | Jwt.signed c k => if k = key ∧ now ≤ c.exp + JWT_LEEWAY then some c else none

/-- Model of the bytes presented in the `Authorization` header.  axum's
HeaderValue::to_str fails when the bytes are not visible ASCII (`notAscii`);
otherwise the text either lacks the `"Bearer "` scheme label (`noScheme`,
so strip_prefix(SCHEME_PREFIX) fails), or is the label followed by token
text (`bearer`, what strip_prefix returns being the token). -/
inductive AuthHeaderValue where
  | notAscii
  | noScheme (s : String)
  | bearer (t : Jwt)
  deriving DecidableEq, Repr

/-- Claims::with_sub_to_jwt (src/http/auth.rs:26-41): build claims with
iat = now and exp = now + DEFAULT_SESSION_LENGTH, sign with the configured
RSA private key, and return the scheme label followed by the encoded token
(the source's format!, rendered as the header value `bearer`). -/
def Claims.with_sub_to_jwt (sub : Nat) (now : Nat) (state : Config) : AuthHeaderValue :=
  let iat := now
  let exp := now + DEFAULT_SESSION_LENGTH
  AuthHeaderValue.bearer (jwtEncode { sub := sub, iat := iat, exp := exp } state.rsa_private_key)

/-- Claims::from_jwt (src/http/auth.rs:43-51): decode the presented token
under the configured public key at time `now`; every decode failure is
collapsed to Error.Unauthorized by map_err. -/
def Claims.from_jwt (jwt : Jwt) (state : Config) (now : Nat) : Except Error Claims :=
  match jwtDecode jwt state.rsa_public_key now with
  | some claims => Except.ok claims
  | none => Except.error Error.Unauthorized

/-- The part of an incoming request the middleware reads: the optional
`Authorization` header. -/
structure Request where
  authorization : Option AuthHeaderValue
  deriving DecidableEq, Repr

/-- auth (src/http/auth.rs:54-71), the required-auth middleware: extract the
header (ok_or Unauthorized), its text (map_err Unauthorized), the part after
the scheme label (ok_or Unauthorized), decode it, and on success insert the
claims into the request extensions and run the downstream handler `next`;
each extraction failure returns before `next` runs. -/
def auth {ρ : Type} (state : Config) (now : Nat) (request : Request)
    (next : Claims → ρ) : Except Error ρ :=
  match request.authorization with
  | none => Except.error Error.Unauthorized
  | some hv =>
    match hv with
    | AuthHeaderValue.notAscii => Except.error Error.Unauthorized
    | AuthHeaderValue.noScheme _ => Except.error Error.Unauthorized
    | AuthHeaderValue.bearer jwt =>
      match Claims.from_jwt jwt state now with
      | Except.error e => Except.error e
      | Except.ok claims => Except.ok (next claims)

/-- maybe_auth (src/http/auth.rs:73-91), the optional-auth middleware: a
missing header is turned into Err(Error::Unauthorized) by ok_or and
propagated by the trailing question mark; when the header is present, the
failures inside the and_then closure (to_str().ok(), strip_prefix's question
mark, from_jwt(..).ok()) all collapse to None, and the request proceeds with
the optional claims inserted into the extensions. -/
def maybe_auth {ρ : Type} (state : Config) (now : Nat) (request : Request)
    (next : Option Claims → ρ) : Except Error ρ :=
  match request.authorization with
  | none => Except.error Error.Unauthorized
  | some hv =>
    let maybe_claims : Option Claims :=
      match hv with
      | AuthHeaderValue.notAscii => none
      | AuthHeaderValue.noScheme _ => none
      | AuthHeaderValue.bearer jwt => (Claims.from_jwt jwt state now).toOption
    Except.ok (next maybe_claims)

/-- Model of the argon2 key derivation: the digest is the injective pairing
of the salt with the plaintext, which captures exactly the library contract
that equal (salt, plaintext) inputs re-derive equal digests and distinct
inputs are collision-free. -/
structure ArgonDigest where
  salt : Nat
  plaintext : String
  deriving DecidableEq, Repr

/-- A stored credential string: either a well-formed PHC-format string
carrying its salt and derived digest, or bytes that PasswordHash::new cannot
parse. -/
inductive StoredHash where
  | phc (salt : Nat) (digest : ArgonDigest)
  | malformed (raw : String)
  deriving DecidableEq, Repr

/-- PasswordHash::generate with Argon2::default: derive the digest for the
given salt and plaintext. -/
def argon2Derive (salt : Nat) (password : String) : ArgonDigest :=
  { salt := salt, plaintext := password }

/-- hash_password (src/http/users.rs:205-214): generate a fresh random salt
and derive a PHC string from it.  The SaltString drawn from thread_rng is the
explicit `salt` parameter (randomness is an input of the model); the
spawn_blocking scheduling is dropped. -/
def hash_password (salt : Nat) (password : String) : StoredHash :=
  StoredHash.phc salt (argon2Derive salt password)

/-- verify_password (src/http/users.rs:216-229): a stored string that
PasswordHash::new fails to parse becomes the anyhow error "invalid password
hash", an opaque server fault (Error.Internal through the errors.rs From
conversion, per the spec's taxonomy); a parsed hash is re-derived with its
embedded salt and compared, a mismatch being argon2's Error::Password, which
the handler maps to Error.Unauthorized. -/
def verify_password (password : String) (password_hash : StoredHash) : Except Error Unit :=
  match password_hash with
  | StoredHash.malformed _ => Except.error (Error.Internal "invalid password hash")
  | StoredHash.phc salt digest =>
    if argon2Derive salt password = digest then Except.ok ()
    else Except.error Error.Unauthorized

/-- A row of the article table (columns the handlers touch). -/
structure ArticleRow where
  article_id : Nat
  user_id : Nat
  slug : String
  title : String
  description : String
  body : String
  tag_list : List String
  created_at : Nat
  updated_at : Nat
  deriving DecidableEq, Repr

/-- A row of the article_comment table. -/
structure CommentRow where
  comment_id : Int
  article_id : Nat
  user_id : Nat
  body : String
  created_at : Nat
  updated_at : Nat
  deriving DecidableEq, Repr

/-- A row of the article_favorite table. -/
structure FavoriteRow where
  article_id : Nat
  user_id : Nat
  deriving DecidableEq, Repr

/-- A row of the "user" table (columns the handlers touch). -/
structure UserRow where
  user_id : Nat
  username : String
  email : String
  bio : String
  image : Option String
  password_hash : StoredHash
  deriving DecidableEq, Repr

/-- The relational store as the handlers see it. -/
structure Db where
  articles : List ArticleRow
  comments : List CommentRow
  favorites : List FavoriteRow
  users : List UserRow
  deriving DecidableEq, Repr

/-- The article_slug_key unique constraint: no two distinct article rows
share a slug. -/
def slugsUnique (db : Db) : Prop :=
  ∀ a ∈ db.articles, ∀ b ∈ db.articles, a.slug = b.slug → a = b

/-- The article_comment primary key: no two distinct comment rows share a
comment_id. -/
def commentIdsUnique (db : Db) : Prop :=
  ∀ c ∈ db.comments, ∀ d ∈ db.comments, c.comment_id = d.comment_id → c = d

instance : DecidablePred slugsUnique := fun db =>
  inferInstanceAs (Decidable (∀ a ∈ db.articles, ∀ b ∈ db.articles, a.slug = b.slug → a = b))

instance : DecidablePred commentIdsUnique := fun db =>
  inferInstanceAs (Decidable (∀ c ∈ db.comments, ∀ d ∈ db.comments, c.comment_id = d.comment_id → c = d))

/-- The predicate of delete_article's data-modifying CTE, `delete from
article where slug = $1 and user_id = $2`: the row is keyed by the slug and
restricted to the caller as owner. -/
def articleHit (sub : Nat) (slug : String) (a : ArticleRow) : Bool :=
  a.slug == slug && a.user_id == sub

/-- The existence probe of delete_article, scoped by the key alone:
`exists(select 1 from article where slug = $1)`, read in the statement's
snapshot, i.e. against the pre-delete table. -/
def articleExisted (db : Db) (slug : String) : Bool :=
  db.articles.any (fun a => a.slug == slug)

/-- Whether delete_article's CTE deleted a row: `exists(select 1 from
deleted_article)`. -/
def articleDeleted (db : Db) (sub : Nat) (slug : String) : Bool :=
  db.articles.any (articleHit sub slug)

/-- delete_article (src/http/article/mod.rs:243-273): one statement deletes
by (slug, owner) and, in the same snapshot, probes existence by slug alone;
the handler then classifies: deleted gives Ok, existed-but-not-deleted gives
Forbidden, neither gives NotFound.  Returns the post-statement store and the
handler's result. -/
def delete_article (db : Db) (sub : Nat) (slug : String) : Db × Except Error Unit :=
  let existed := articleExisted db slug
  let deleted := articleDeleted db sub slug
  let db' := { db with articles := db.articles.filter (fun a => !(articleHit sub slug a)) }
  (db', if deleted then Except.ok () else
        if existed then Except.error Error.Forbidden else Except.error Error.NotFound)

/-- The predicate of delete_comment's data-modifying CTE, `delete from
article_comment where comment_id = $1 and article_id = (select article_id
from article where slug = $2) and user_id = $3`.  The scalar subquery is the
first article row carrying the slug (under the slug unique constraint the
only one); when no article carries it, the comparison with the null scalar
is false. -/
def commentHit (db : Db) (sub : Nat) (slug : String) (comment_id : Int) (c : CommentRow) : Bool :=
  c.comment_id == comment_id
    && ((db.articles.find? (fun a => a.slug == slug)).map ArticleRow.article_id
          == some c.article_id)
    && c.user_id == sub

/-- The existence probe of delete_comment, scoped by the key (slug,
comment_id) alone: `exists(select 1 from article_comment inner join article
using (article_id) where comment_id = $1 and slug = $2)`, read in the
statement's snapshot. -/
def commentExisted (db : Db) (slug : String) (comment_id : Int) : Bool :=
  db.comments.any (fun c =>
    c.comment_id == comment_id
      && db.articles.any (fun a => a.article_id == c.article_id && a.slug == slug))

/-- Whether delete_comment's CTE deleted a row. -/
def commentDeleted (db : Db) (sub : Nat) (slug : String) (comment_id : Int) : Bool :=
  db.comments.any (commentHit db sub slug comment_id)

/-- delete_comment (src/http/article/comments.rs:166-204): one statement
deletes by (comment_id, article-of-slug, owner) and, in the same snapshot,
probes existence by (comment_id, slug) alone; the handler classifies as
delete_article does. -/
def delete_comment (db : Db) (sub : Nat) (slug : String) (comment_id : Int) :
    Db × Except Error Unit :=
  let existed := commentExisted db slug comment_id
  let deleted := commentDeleted db sub slug comment_id
  let db' := { db with comments := db.comments.filter (fun c => !(commentHit db sub slug comment_id c)) }
  (db', if deleted then Except.ok () else
        if existed then Except.error Error.Forbidden else Except.error Error.NotFound)

/-- Rust's char::to_ascii_lowercase: lowercase the ASCII uppercase range,
leave every other character unchanged. -/
def toAsciiLowercase (c : Char) : Char :=
  if 'A' ≤ c ∧ c ≤ 'Z' then Char.ofNat (c.toNat + 32) else c

/-- The per-character match arm of slugify (src/http/article/mod.rs:431-441). -/
def slugifyChar (c : Char) : Char :=
  if ('a' ≤ c ∧ c ≤ 'z') ∨ ('0' ≤ c ∧ c ≤ '9') then c
  else if c = 'á' ∨ c = 'à' ∨ c = 'ä' ∨ c = 'â' then 'a'
  else if c = 'é' ∨ c = 'è' ∨ c = 'ë' ∨ c = 'ê' then 'e'
  else if c = 'í' ∨ c = 'ì' ∨ c = 'ï' ∨ c = 'î' then 'i'
  else if c = 'ó' ∨ c = 'ò' ∨ c = 'ö' ∨ c = 'ô' then 'o'
  else if c = 'ú' ∨ c = 'ù' ∨ c = 'ü' ∨ c = 'û' then 'u'
  else if c = 'ñ' then 'n'
  else if c = '\'' ∨ c = '\\' then Char.ofNat 0
  else ' '

/-- slugify (src/http/article/mod.rs:427-446): ascii-lowercase, map each
character through the match, split on whitespace and join with dashes. -/
def slugify (title : String) : String :=
  let mapped := String.map slugifyChar (String.map toAsciiLowercase title)
  String.intercalate "-" ((mapped.split Char.isWhitespace).filter (fun s => !s.isEmpty))

/-- UpdateArticle (src/http/article/mod.rs:62-67), the request body of the
update endpoint. -/
structure UpdateArticle where
  title : Option String
  description : Option String
  body : Option String
  deriving DecidableEq, Repr

/-- The row update_article's outer select returns (ArticleFromQuery). -/
structure ArticleResponse where
  slug : String
  title : String
  description : String
  body : String
  tag_list : List String
  created_at : Nat
  updated_at : Nat
  favorited : Bool
  favorites_count : Nat
  author_username : String
  author_bio : String
  author_image : Option String
  following_author : Bool
  deriving DecidableEq, Repr

/-- The permission_check CTE of update_article: `select article_id from
article where slug = $1 and user_id = $2`. -/
def permission_check (db : Db) (sub : Nat) (slug : String) : List Nat :=
  (db.articles.filter (fun a => a.slug == slug && a.user_id == sub)).map ArticleRow.article_id

/-- The predicate of update_article's update CTE: `where slug = $1 and
exists(select 1 from permission_check)`.  The owner restriction acts only
through the exists probe over the same snapshot, not as a column condition
on the row being rewritten. -/
def updateHit (db : Db) (sub : Nat) (slug : String) (a : ArticleRow) : Bool :=
  a.slug == slug && !(permission_check db sub slug).isEmpty

/-- The `set` list of update_article's update CTE: every column is
coalesce(new value, current value), the new slug being slugify of the new
title. -/
def applyUpdate (req : UpdateArticle) (a : ArticleRow) : ArticleRow :=
  { a with slug := (req.title.map slugify).getD a.slug,
           title := req.title.getD a.title,
           description := req.description.getD a.description,
           body := req.body.getD a.body }

/-- update_article (src/http/article/mod.rs:176-241): one statement holds the
permission_check probe, the conditional update and the response projection.
fetch_one with no returned row (key absent, caller not the owner, or author
join empty) raises RowNotFound, and the final map_err turns every error that
is not an UnprocessableEntity into Error.Forbidden; a slug collision raised
by the article_slug_key constraint is caught by on_constraint as an
UnprocessableEntity naming the duplicate slug.  In the response row,
favorited is `exists(select 1 from article_favorite where user_id = $2)`,
with no condition on the article, and favorites_count counts the favorites
of the scalar of permission_check. -/
def update_article (db : Db) (sub : Nat) (slug : String) (req : UpdateArticle) :
    Db × Except Error ArticleResponse :=
  let new_slug := req.title.map slugify
  let hitRows := db.articles.filter (updateHit db sub slug)
  let db' := { db with
    articles := db.articles.map (fun a => if updateHit db sub slug a then applyUpdate req a else a) }
  let violation :=
    match new_slug with
    | none => false
    | some ns => !hitRows.isEmpty
        && db.articles.any (fun b => !(updateHit db sub slug b) && b.slug == ns)
  match hitRows.head? with
  | none => (db, Except.error Error.Forbidden)
  | some a0 =>
    if violation then
      (db, Except.error (Error.unprocessable_entity
        [("slug", "duplicate article slug: " ++ new_slug.getD "")]))
    else
      match db.users.find? (fun u => u.user_id == sub) with
      | none => (db', Except.error Error.Forbidden)
      | some author =>
        let updated := applyUpdate req a0
        (db', Except.ok
          { slug := updated.slug, title := updated.title,
            description := updated.description, body := updated.body,
            tag_list := updated.tag_list,
            created_at := updated.created_at, updated_at := updated.updated_at,
            favorited := db.favorites.any (fun f => f.user_id == sub),
            favorites_count := (db.favorites.filter
              (fun f => (permission_check db sub slug).head? == some f.article_id)).length,
            author_username := author.username, author_bio := author.bio,
            author_image := author.image, following_author := false })

/-- The User response body (src/http/users.rs:54-61); the token field holds
the header-ready string with_sub_to_jwt builds. -/
structure User where
  email : String
  token : AuthHeaderValue
  username : String
  bio : String
  image : Option String
  deriving DecidableEq, Repr

/-- login_user (src/http/users.rs:96-123): look the account up by email — no
row is the UnprocessableEntity "does not exist" on the email field — then
verify the password against the stored hash, propagating its error, and on
success issue a fresh token (the source sets image to None). -/
def login_user (db : Db) (email password : String) (state : Config) (now : Nat) :
    Except Error User :=
  match db.users.find? (fun u => u.email == email) with
  | none => Except.error (Error.unprocessable_entity [("email", "does not exist")])
  | some u =>
    match verify_password password u.password_hash with
    | Except.error e => Except.error e
    | Except.ok _ =>
      Except.ok { email := u.email, token := Claims.with_sub_to_jwt u.user_id now state,
                  username := u.username, bio := u.bio, image := none }

/-- The failure cases of the required-auth middleware's extraction pipeline:
the Authorization header is absent, its bytes are not ASCII text, its text
lacks the scheme label, or the presented token fails jsonwebtoken decoding
(bad signature, malformed payload, or expired). -/
def authFailure (state : Config) (now : Nat) (request : Request) : Prop :=
  request.authorization = none ∨
  request.authorization = some AuthHeaderValue.notAscii ∨
  (∃ s, request.authorization = some (AuthHeaderValue.noScheme s)) ∨
  (∃ jwt, request.authorization = some (AuthHeaderValue.bearer jwt) ∧
      jwtDecode jwt state.rsa_public_key now = none)

/-- A configuration whose private and public keys come from the same pair. -/
def cfg7 : Config := { rsa_private_key := 7, rsa_public_key := 7 }

/-- A concrete account whose stored credential is the hash of "pw". -/
def userAlice : UserRow :=
  { user_id := 10, username := "alice", email := "a@b", bio := "", image := none,
    password_hash := hash_password 3 "pw" }

/-- A concrete store: one article "r1" owned by user 10, one comment on it by
user 10, and a favorite by user 10 on a different article (id 99). -/
def dbOne : Db :=
  { articles := [{ article_id := 1, user_id := 10, slug := "r1", title := "R1",
                   description := "d", body := "b", tag_list := [],
                   created_at := 0, updated_at := 0 }],
    comments := [{ comment_id := 5, article_id := 1, user_id := 10, body := "c",
                   created_at := 0, updated_at := 0 }],
    favorites := [{ article_id := 99, user_id := 10 }],
    users := [userAlice] }

/-- The empty store. -/
def dbEmpty : Db := { articles := [], comments := [], favorites := [], users := [] }

/-- An update request that changes nothing (all fields None). -/
def noUpdate : UpdateArticle := { title := none, description := none, body := none }

/-- The response update_article returns for noUpdate on "r1" in dbOne. -/
def artR1 : ArticleResponse :=
  { slug := "r1", title := "R1", description := "d", body := "b", tag_list := [],
    created_at := 0, updated_at := 0, favorited := true, favorites_count := 0,
    author_username := "alice", author_bio := "", author_image := none,
    following_author := false }

/-- A token signed with key pair 7 whose exp (0) is long past at time 1000:
syntactically valid, correctly signed, but expired. -/
def expiredJwt : Jwt := Jwt.signed { sub := 1, iat := 0, exp := 0 } 7

/-! Helper lemmas shared by the claim theorems. -/

/-- A row the delete CTE matches carries the slug, so a deletion implies the
existence probe fires. -/
theorem articleDeleted_imp_existed (db : Db) (sub : Nat) (slug : String)
    (h : articleDeleted db sub slug = true) : articleExisted db slug = true := by
  simp only [articleDeleted, articleHit, List.any_eq_true, Bool.and_eq_true] at h
  obtain ⟨a, ha, hslug, _⟩ := h
  exact List.any_eq_true.mpr ⟨a, ha, hslug⟩

/-- A comment row the delete CTE matches joins to an article with the slug,
so a deletion implies the existence probe fires. -/
theorem commentDeleted_imp_existed (db : Db) (sub : Nat) (slug : String) (cid : Int)
    (h : commentDeleted db sub slug cid = true) : commentExisted db slug cid = true := by
  simp only [commentDeleted, commentHit, List.any_eq_true, Bool.and_eq_true] at h
  obtain ⟨c, hc, ⟨hcid, hart⟩, _⟩ := h
  simp only [commentExisted, List.any_eq_true, Bool.and_eq_true]
  refine ⟨c, hc, hcid, ?_⟩
  rw [beq_iff_eq, Option.map_eq_some'] at hart
  obtain ⟨a, hfind, haid⟩ := hart
  have hp := List.find?_some hfind
  exact ⟨a, List.mem_of_find?_eq_some hfind, by simp [haid], hp⟩

/-- After a successful delete, no article with the slug survives (under the
slug unique constraint the deleted row was the only one). -/
theorem articleExisted_after_delete (db : Db) (sub : Nat) (slug : String)
    (hs : slugsUnique db) (h : articleDeleted db sub slug = true) :
    articleExisted (delete_article db sub slug).1 slug = false := by
  simp only [articleDeleted, articleHit, List.any_eq_true, Bool.and_eq_true, beq_iff_eq] at h
  obtain ⟨a0, ha0, hslug0, hown0⟩ := h
  simp only [delete_article, articleExisted]
  rw [Bool.eq_false_iff]
  intro hex
  rw [List.any_eq_true] at hex
  obtain ⟨a, ha, hslug⟩ := hex
  rw [List.mem_filter] at ha
  obtain ⟨hmem, hkeep⟩ := ha
  rw [beq_iff_eq] at hslug
  have : a = a0 := hs a hmem a0 ha0 (hslug.trans hslug0.symm)
  subst this
  simp [articleHit, hslug, hown0] at hkeep

/-- After a successful comment delete, no comment with the comment_id joins
to the slug any more (under the primary key the deleted row was the only one
with that id). -/
theorem commentExisted_after_delete (db : Db) (sub : Nat) (slug : String) (cid : Int)
    (hc : commentIdsUnique db) (h : commentDeleted db sub slug cid = true) :
    commentExisted (delete_comment db sub slug cid).1 slug cid = false := by
  simp only [commentDeleted, List.any_eq_true] at h
  obtain ⟨c0, hc0, hhit0⟩ := h
  simp only [delete_comment, commentExisted]
  rw [Bool.eq_false_iff]
  intro hex
  rw [List.any_eq_true] at hex
  obtain ⟨c, hmemf, hpred⟩ := hex
  rw [List.mem_filter] at hmemf
  obtain ⟨hmem, hkeep⟩ := hmemf
  rw [Bool.and_eq_true, beq_iff_eq] at hpred
  have hcid0 : (c0.comment_id == cid) = true := by
    have := hhit0
    simp only [commentHit, Bool.and_eq_true] at this
    exact this.1.1
  have : c = c0 := hc c hmem c0 hc0 (by rw [beq_iff_eq] at hcid0; rw [hpred.1, hcid0])
  subst this
  simp [hhit0] at hkeep

/-- update_article either leaves the article table unchanged (RowNotFound or
unique-violation path) or rewrites exactly the rows its update CTE hits. -/
theorem update_post_articles (db : Db) (sub : Nat) (slug : String) (req : UpdateArticle) :
    (update_article db sub slug req).1.articles = db.articles ∨
    (update_article db sub slug req).1.articles
      = db.articles.map (fun a => if updateHit db sub slug a then applyUpdate req a else a) := by
  unfold update_article
  dsimp only
  split
  · left; rfl
  · split
    · left; rfl
    · split
      · right; rfl
      · right; rfl

/-- When no article carries the slug, no comment joins to it either. -/
theorem articleExisted_false_no_comment (db : Db) (slug : String) (cid : Int)
    (ha : articleExisted db slug = false) : commentExisted db slug cid = false := by
  rw [Bool.eq_false_iff] at ha ⊢
  intro hex
  apply ha
  simp only [commentExisted, List.any_eq_true, Bool.and_eq_true] at hex
  obtain ⟨c, _, _, hinner⟩ := hex
  obtain ⟨a, hamem, hpred⟩ := hinner
  exact List.any_eq_true.mpr ⟨a, hamem, hpred.2⟩

/-! Claim theorems. -/

/-- C1: the optional-auth middleware swallows the failures that occur once an
Authorization header is present (non-ASCII bytes, missing scheme label,
undecodable or expired token), attaching RequestIdentity None and running the
handler — but a MISSING header is not swallowed: ok_or(Error::Unauthorized)
followed by the question-mark operator fails the request with Unauthorized
before the handler runs, contradicting the claim on that input. -/
theorem maybe_auth_outcomes :
    (∀ (ρ : Type) (state : Config) (now : Nat) (next : Option Claims → ρ),
        maybe_auth state now { authorization := none } next = Except.error Error.Unauthorized) ∧
    (∀ (ρ : Type) (state : Config) (now : Nat) (next : Option Claims → ρ),
        maybe_auth state now { authorization := some AuthHeaderValue.notAscii } next
          = Except.ok (next none)) ∧
    (∀ (ρ : Type) (state : Config) (now : Nat) (next : Option Claims → ρ) (s : String),
        maybe_auth state now { authorization := some (AuthHeaderValue.noScheme s) } next
          = Except.ok (next none)) ∧
    (∀ (ρ : Type) (state : Config) (now : Nat) (next : Option Claims → ρ) (jwt : Jwt),
        maybe_auth state now { authorization := some (AuthHeaderValue.bearer jwt) } next
          = Except.ok (next ((Claims.from_jwt jwt state now).toOption))) :=
  ⟨fun _ _ _ _ => rfl, fun _ _ _ _ => rfl, fun _ _ _ _ _ => rfl, fun _ _ _ _ _ => rfl⟩

/-- C2: for deletes of an article by slug and of a comment by (slug,
comment_id), the outcome is classified from the two probes of the single
statement — existed (by key alone) and mutated (key plus owner) — as
NotFound / Forbidden / Success per the spec's table, and after a Success an
immediately repeated attempt by the same caller on the same key is NotFound
(given the store's slug uniqueness and comment primary key). -/
theorem ownership_guard_delete_classification (db : Db) (sub : Nat) (slug : String) (cid : Int)
    (hs : slugsUnique db) (hc : commentIdsUnique db) :
    ((articleExisted db slug = false → (delete_article db sub slug).2 = Except.error Error.NotFound) ∧
     (articleExisted db slug = true → articleDeleted db sub slug = false →
        (delete_article db sub slug).2 = Except.error Error.Forbidden) ∧
     (articleDeleted db sub slug = true → (delete_article db sub slug).2 = Except.ok ()) ∧
     ((delete_article db sub slug).2 = Except.ok () →
        (delete_article (delete_article db sub slug).1 sub slug).2 = Except.error Error.NotFound)) ∧
    ((commentExisted db slug cid = false → (delete_comment db sub slug cid).2 = Except.error Error.NotFound) ∧
     (commentExisted db slug cid = true → commentDeleted db sub slug cid = false →
        (delete_comment db sub slug cid).2 = Except.error Error.Forbidden) ∧
     (commentDeleted db sub slug cid = true → (delete_comment db sub slug cid).2 = Except.ok ()) ∧
     ((delete_comment db sub slug cid).2 = Except.ok () →
        (delete_comment (delete_comment db sub slug cid).1 sub slug cid).2 = Except.error Error.NotFound)) := by
  refine ⟨⟨?_, ?_, ?_, ?_⟩, ⟨?_, ?_, ?_, ?_⟩⟩
  · intro hex
    have hdel : articleDeleted db sub slug = false := by
      by_contra hne
      rw [Bool.not_eq_false] at hne
      rw [articleDeleted_imp_existed db sub slug hne] at hex
      exact absurd hex (by simp)
    simp [delete_article, hex, hdel]
  · intro hex hdel
    simp [delete_article, hex, hdel]
  · intro hdel
    simp [delete_article, hdel]
  · intro hok
    have hdel : articleDeleted db sub slug = true := by
      by_contra hne
      rw [Bool.not_eq_true] at hne
      by_cases hex : articleExisted db slug = true
      · simp [delete_article, hne, hex] at hok
      · rw [Bool.not_eq_true] at hex
        simp [delete_article, hne, hex] at hok
    have hex2 := articleExisted_after_delete db sub slug hs hdel
    have hdel2 : articleDeleted (delete_article db sub slug).1 sub slug = false := by
      by_contra hne
      rw [Bool.not_eq_false] at hne
      rw [articleDeleted_imp_existed _ sub slug hne] at hex2
      exact absurd hex2 (by simp)
    simp only [delete_article] at hex2 hdel2 ⊢
    simp [hex2, hdel2]
  · intro hex
    have hdel : commentDeleted db sub slug cid = false := by
      by_contra hne
      rw [Bool.not_eq_false] at hne
      rw [commentDeleted_imp_existed db sub slug cid hne] at hex
      exact absurd hex (by simp)
    simp [delete_comment, hex, hdel]
  · intro hex hdel
    simp [delete_comment, hex, hdel]
  · intro hdel
    simp [delete_comment, hdel]
  · intro hok
    have hdel : commentDeleted db sub slug cid = true := by
      by_contra hne
      rw [Bool.not_eq_true] at hne
      by_cases hex : commentExisted db slug cid = true
      · simp [delete_comment, hne, hex] at hok
      · rw [Bool.not_eq_true] at hex
        simp [delete_comment, hne, hex] at hok
    have hex2 := commentExisted_after_delete db sub slug cid hc hdel
    have hdel2 : commentDeleted (delete_comment db sub slug cid).1 sub slug cid = false := by
      by_contra hne
      rw [Bool.not_eq_false] at hne
      rw [commentDeleted_imp_existed _ sub slug cid hne] at hex2
      exact absurd hex2 (by simp)
    simp only [delete_comment] at hex2 hdel2 ⊢
    simp [hex2, hdel2]

/-- C2 witness: the classification instantiated at the concrete store dbOne,
caller 10, key "r1" and comment 5, the uniqueness side conditions discharged
by evaluation. -/
theorem ownership_guard_delete_classification_witness :
    ((articleExisted dbOne "r1" = false → (delete_article dbOne 10 "r1").2 = Except.error Error.NotFound) ∧
     (articleExisted dbOne "r1" = true → articleDeleted dbOne 10 "r1" = false →
        (delete_article dbOne 10 "r1").2 = Except.error Error.Forbidden) ∧
     (articleDeleted dbOne 10 "r1" = true → (delete_article dbOne 10 "r1").2 = Except.ok ()) ∧
     ((delete_article dbOne 10 "r1").2 = Except.ok () →
        (delete_article (delete_article dbOne 10 "r1").1 10 "r1").2 = Except.error Error.NotFound)) ∧
    ((commentExisted dbOne "r1" 5 = false → (delete_comment dbOne 10 "r1" 5).2 = Except.error Error.NotFound) ∧
     (commentExisted dbOne "r1" 5 = true → commentDeleted dbOne 10 "r1" 5 = false →
        (delete_comment dbOne 10 "r1" 5).2 = Except.error Error.Forbidden) ∧
     (commentDeleted dbOne 10 "r1" 5 = true → (delete_comment dbOne 10 "r1" 5).2 = Except.ok ()) ∧
     ((delete_comment dbOne 10 "r1" 5).2 = Except.ok () →
        (delete_comment (delete_comment dbOne 10 "r1" 5).1 10 "r1" 5).2 = Except.error Error.NotFound)) :=
  ownership_guard_delete_classification dbOne 10 "r1" 5 (by decide) (by decide)

/-- C3 counterexample: updating an article whose slug does not exist in the
store returns Forbidden, not NotFound, because update_article's final
map_err collapses the RowNotFound of fetch_one into Error::Forbidden. -/
theorem update_article_missing_slug_forbidden :
    (update_article { articles := [], comments := [], favorites := [], users := [] } 7 "missing"
        { title := none, description := none, body := none }).2 = Except.error Error.Forbidden ∧
    (update_article { articles := [], comments := [], favorites := [], users := [] } 7 "missing"
        { title := none, description := none, body := none }).2 ≠ Except.error Error.NotFound := by
  constructor
  · rfl
  · simp [update_article]

/-- C3 as amended: when no resource with the given key exists, the two
deletes return NotFound for every caller, but update_article instead returns
Forbidden (its error collapse loses the NotFound case). -/
theorem missing_key_outcomes (db : Db) (sub : Nat) (slug : String) (cid : Int)
    (req : UpdateArticle) (ha : articleExisted db slug = false) :
    (delete_article db sub slug).2 = Except.error Error.NotFound ∧
    (delete_comment db sub slug cid).2 = Except.error Error.NotFound ∧
    (update_article db sub slug req).2 = Except.error Error.Forbidden := by
  have hdel : articleDeleted db sub slug = false := by
    by_contra hne
    rw [Bool.not_eq_false] at hne
    rw [articleDeleted_imp_existed db sub slug hne] at ha
    exact absurd ha (by simp)
  have hcex : commentExisted db slug cid = false := articleExisted_false_no_comment db slug cid ha
  have hcdel : commentDeleted db sub slug cid = false := by
    by_contra hne
    rw [Bool.not_eq_false] at hne
    rw [commentDeleted_imp_existed db sub slug cid hne] at hcex
    exact absurd hcex (by simp)
  refine ⟨by simp [delete_article, ha, hdel], by simp [delete_comment, hcex, hcdel], ?_⟩
  have hempty : db.articles.filter (updateHit db sub slug) = [] := by
    rw [List.filter_eq_nil_iff]
    intro a hmem
    have : (a.slug == slug) = false := by
      rw [Bool.eq_false_iff] at ha ⊢
      intro hsl
      exact ha (List.any_eq_true.mpr ⟨a, hmem, hsl⟩)
    simp [updateHit, this]
  unfold update_article
  dsimp only
  rw [hempty]
  rfl

/-- C3 witness: the amended statement instantiated at dbOne and the absent
key "nope". -/
theorem missing_key_outcomes_witness :
    (delete_article dbOne 10 "nope").2 = Except.error Error.NotFound ∧
    (delete_comment dbOne 10 "nope" 5).2 = Except.error Error.NotFound ∧
    (update_article dbOne 10 "nope" noUpdate).2 = Except.error Error.Forbidden :=
  missing_key_outcomes dbOne 10 "nope" 5 noUpdate (by decide)

/-- C4: the conditional statements of delete_article, delete_comment and
update_article never mutate a row whose owner differs from the caller: every
article or comment row that is removed or rewritten by the statement (gone
from, or changed in, the post-state) has user_id equal to the caller's
identity.  For update_article this relies on the slug unique constraint,
since its update CTE restricts by owner only through the exists probe. -/
theorem ownership_guard_owner_only (db : Db) (sub : Nat) (slug : String) (cid : Int)
    (req : UpdateArticle) (hs : slugsUnique db) :
    (∀ a ∈ db.articles, a ∉ (delete_article db sub slug).1.articles → a.user_id = sub) ∧
    (∀ c ∈ db.comments, c ∉ (delete_comment db sub slug cid).1.comments → c.user_id = sub) ∧
    (∀ a ∈ db.articles, a ∉ (update_article db sub slug req).1.articles → a.user_id = sub) := by
  refine ⟨?_, ?_, ?_⟩
  · intro a hmem hnot
    simp only [delete_article] at hnot
    by_contra hneq
    apply hnot
    rw [List.mem_filter]
    refine ⟨hmem, ?_⟩
    simp [articleHit, hneq]
  · intro c hmem hnot
    simp only [delete_comment] at hnot
    by_contra hneq
    apply hnot
    rw [List.mem_filter]
    refine ⟨hmem, ?_⟩
    simp [commentHit, hneq]
  · intro a hmem hnot
    rcases update_post_articles db sub slug req with hpost | hpost
    · rw [hpost] at hnot; exact absurd hmem hnot
    · rw [hpost] at hnot
      by_cases hhit : updateHit db sub slug a = true
      · simp only [updateHit, Bool.and_eq_true, beq_iff_eq] at hhit
        obtain ⟨hslug, hperm⟩ := hhit
        rcases h' : permission_check db sub slug with _ | ⟨x, xs⟩
        · rw [h'] at hperm; simp at hperm
        have hx : x ∈ permission_check db sub slug := by
          rw [h']; exact List.mem_cons_self x xs
        simp only [permission_check, List.mem_map, List.mem_filter,
          Bool.and_eq_true, beq_iff_eq] at hx
        obtain ⟨b, ⟨hbmem, hbslug, hbown⟩, _⟩ := hx
        have : a = b := hs a hmem b hbmem (hslug.trans hbslug.symm)
        rw [this]; exact hbown
      · have hkeep : (fun x => if updateHit db sub slug x then applyUpdate req x else x) a = a := by
          simp [hhit]
        have h2 := List.mem_map_of_mem (fun x => if updateHit db sub slug x then applyUpdate req x else x) hmem
        rw [hkeep] at h2
        exact absurd h2 hnot

/-- C4 witness: the owner-only property instantiated at dbOne, caller 10,
key "r1", the slug uniqueness side condition discharged by evaluation. -/
theorem ownership_guard_owner_only_witness :
    (∀ a ∈ dbOne.articles, a ∉ (delete_article dbOne 10 "r1").1.articles → a.user_id = 10) ∧
    (∀ c ∈ dbOne.comments, c ∉ (delete_comment dbOne 10 "r1" 5).1.comments → c.user_id = 10) ∧
    (∀ a ∈ dbOne.articles, a ∉ (update_article dbOne 10 "r1" noUpdate).1.articles → a.user_id = 10) :=
  ownership_guard_owner_only dbOne 10 "r1" 5 noUpdate (by decide)

/-- C5: for every identity, decoding the token issued for it (after the
scheme label the issuer prepends) returns claims with the same identity, and
exp minus iat is exactly the fixed two-week session length; decoding is under
the matching public key at any time before expiry. -/
theorem decode_issue_roundtrip (sub now now2 : Nat) (state : Config)
    (hkey : state.rsa_public_key = state.rsa_private_key)
    (hvalid : now2 ≤ now + DEFAULT_SESSION_LENGTH) :
    ∃ c : Claims,
      Claims.with_sub_to_jwt sub now state
          = AuthHeaderValue.bearer (jwtEncode c state.rsa_private_key) ∧
      Claims.from_jwt (jwtEncode c state.rsa_private_key) state now2 = Except.ok c ∧
      c.sub = sub ∧ c.exp - c.iat = DEFAULT_SESSION_LENGTH := by
  refine ⟨{ sub := sub, iat := now, exp := now + DEFAULT_SESSION_LENGTH }, rfl, ?_, rfl, ?_⟩
  · have hle : now2 ≤ now + DEFAULT_SESSION_LENGTH + JWT_LEEWAY :=
      le_trans hvalid (Nat.le_add_right _ _)
    simp [Claims.from_jwt, jwtDecode, jwtEncode, hkey, hle]
  · show now + DEFAULT_SESSION_LENGTH - now = DEFAULT_SESSION_LENGTH
    omega

/-- C5 witness: the roundtrip at identity 5, issued at time 100, decoded at
time 200 under the matched key pair cfg7. -/
theorem decode_issue_roundtrip_witness :
    ∃ c : Claims,
      Claims.with_sub_to_jwt 5 100 cfg7
          = AuthHeaderValue.bearer (jwtEncode c cfg7.rsa_private_key) ∧
      Claims.from_jwt (jwtEncode c cfg7.rsa_private_key) cfg7 200 = Except.ok c ∧
      c.sub = 5 ∧ c.exp - c.iat = DEFAULT_SESSION_LENGTH :=
  decode_issue_roundtrip 5 100 200 cfg7 rfl (by decide)

/-- C6: the required-auth middleware rejects an absent Authorization header,
a header whose bytes are not text, a header lacking the scheme prefix, and a
token that fails decoding (expired included) — all as the same Unauthorized
outcome, and without invoking the downstream handler: the result is the
error for EVERY handler `next`, so the handler's value is never consulted. -/
theorem auth_rejects_unauthorized (state : Config) (now : Nat) (request : Request)
    (h : authFailure state now request) :
    ∀ (ρ : Type) (next : Claims → ρ),
      auth state now request next = Except.error Error.Unauthorized := by
  intro ρ next
  rcases h with h | h | ⟨s, h⟩ | ⟨jwt, h, hdec⟩
  · simp [auth, h]
  · simp [auth, h]
  · simp [auth, h]
  · simp [auth, h, Claims.from_jwt, hdec]

/-- C6 witness: a correctly signed but long-expired token presented at time
1000 is rejected as Unauthorized. -/
theorem auth_rejects_unauthorized_witness :
    auth cfg7 1000 { authorization := some (AuthHeaderValue.bearer expiredJwt) }
        (fun c => c.sub) = Except.error Error.Unauthorized :=
  auth_rejects_unauthorized cfg7 1000
    { authorization := some (AuthHeaderValue.bearer expiredJwt) }
    (Or.inr (Or.inr (Or.inr ⟨expiredJwt, rfl, by decide⟩))) Nat (fun c => c.sub)

/-- C7: verify(p, hash(p)) succeeds for every plaintext and every salt;
verify(p2, hash(p)) fails as Unauthorized for every p2 different from p; and
hashing the same plaintext under two distinct salts (two invocations of the
salt generator) yields different stored strings, both of which verify p. -/
theorem hash_verify_roundtrip (salt salt2 : Nat) (p p2 : String)
    (hne : p2 ≠ p) (hsalt : salt ≠ salt2) :
    verify_password p (hash_password salt p) = Except.ok () ∧
    verify_password p2 (hash_password salt p) = Except.error Error.Unauthorized ∧
    hash_password salt p ≠ hash_password salt2 p ∧
    verify_password p (hash_password salt2 p) = Except.ok () := by
  refine ⟨?_, ?_, ?_, ?_⟩
  · simp [verify_password, hash_password]
  · simp [verify_password, hash_password, argon2Derive, hne]
  · simp [hash_password, hsalt]
  · simp [verify_password, hash_password]

/-- C7 witness: the roundtrip at plaintext "hunter2" against "letmein" under
salts 0 and 1. -/
theorem hash_verify_roundtrip_witness :
    verify_password "hunter2" (hash_password 0 "hunter2") = Except.ok () ∧
    verify_password "letmein" (hash_password 0 "hunter2") = Except.error Error.Unauthorized ∧
    hash_password 0 "hunter2" ≠ hash_password 1 "hunter2" ∧
    verify_password "hunter2" (hash_password 1 "hunter2") = Except.ok () :=
  hash_verify_roundtrip 0 1 "hunter2" "letmein" (by decide) (by decide)

/-- C8: credential verification keeps its two failure causes apart — an
unparseable stored string yields the internal server-fault error, a
well-formed stored credential whose re-derived hash mismatches yields
Unauthorized, and the two outcomes are distinct values. -/
theorem verify_password_failure_modes (raw p : String) (salt : Nat) (digest : ArgonDigest)
    (hne : argon2Derive salt p ≠ digest) :
    verify_password p (StoredHash.malformed raw)
        = Except.error (Error.Internal "invalid password hash") ∧
    verify_password p (StoredHash.phc salt digest) = Except.error Error.Unauthorized ∧
    Error.Internal "invalid password hash" ≠ Error.Unauthorized := by
  refine ⟨rfl, ?_, by simp⟩
  simp [verify_password, hne]

/-- C8 witness: the failure modes at plaintext "pw" against the unparseable
string "garbage" and against a well-formed credential derived from "other". -/
theorem verify_password_failure_modes_witness :
    verify_password "pw" (StoredHash.malformed "garbage")
        = Except.error (Error.Internal "invalid password hash") ∧
    verify_password "pw" (StoredHash.phc 0 (argon2Derive 0 "other"))
        = Except.error Error.Unauthorized ∧
    Error.Internal "invalid password hash" ≠ Error.Unauthorized :=
  verify_password_failure_modes "garbage" "pw" 0 (argon2Derive 0 "other") (by decide)

/-- C9: in a successful update-article response, the favorited field equals
the existence of ANY favorite row of the caller, with no condition tying the
row to the article being updated. -/
theorem update_favorited_unfiltered (db : Db) (sub : Nat) (slug : String) (req : UpdateArticle)
    (db2 : Db) (art : ArticleResponse)
    (h : update_article db sub slug req = (db2, Except.ok art)) :
    art.favorited = db.favorites.any (fun f => f.user_id == sub) ∧
    (art.favorited = true ↔ ∃ f ∈ db.favorites, f.user_id = sub) := by
  unfold update_article at h
  dsimp only at h
  split at h
  · simp at h
  · split at h
    · simp at h
    · split at h
      · simp at h
      · rw [Prod.mk.injEq] at h
        have hart := h.2
        rw [Except.ok.injEq] at hart
        constructor
        · rw [← hart]
        · rw [← hart]
          simp [List.any_eq_true]

/-- C9 witness: in dbOne the caller's only favorite is on article 99, yet
updating article "r1" reports favorited = true. -/
theorem update_favorited_unfiltered_witness :
    artR1.favorited = dbOne.favorites.any (fun f => f.user_id == 10) ∧
    (artR1.favorited = true ↔ ∃ f ∈ dbOne.favorites, f.user_id = 10) :=
  update_favorited_unfiltered dbOne 10 "r1" noUpdate dbOne artR1 rfl

/-- C10: a login whose email matches no stored account fails as the
UnprocessableEntity naming the email field ("does not exist"), a login whose
email matches but whose password fails verification fails as Unauthorized,
and the two outcomes are distinct values. -/
theorem login_distinguishes_missing_email (db db2 : Db) (email p p2 : String)
    (state : Config) (now : Nat) (u2 : UserRow)
    (hnone : ∀ u ∈ db.users, u.email ≠ email)
    (hfind : db2.users.find? (fun u => u.email == email) = some u2)
    (hbad : verify_password p2 u2.password_hash = Except.error Error.Unauthorized) :
    login_user db email p state now
        = Except.error (Error.unprocessable_entity [("email", "does not exist")]) ∧
    login_user db2 email p2 state now = Except.error Error.Unauthorized ∧
    Error.unprocessable_entity [("email", "does not exist")] ≠ Error.Unauthorized := by
  refine ⟨?_, ?_, by simp [Error.unprocessable_entity]⟩
  · have hfn : db.users.find? (fun u => u.email == email) = none := by
      rw [List.find?_eq_none]
      intro u hu
      simp [hnone u hu]
    simp [login_user, hfn]
  · simp [login_user, hfind, hbad]

/-- C10 witness: against the empty store the login for "a@b" is the
UnprocessableEntity on the email field; against dbOne the same email with the
wrong password "bad" is Unauthorized. -/
theorem login_distinguishes_missing_email_witness :
    login_user dbEmpty "a@b" "pw" cfg7 0
        = Except.error (Error.unprocessable_entity [("email", "does not exist")]) ∧
    login_user dbOne "a@b" "bad" cfg7 0 = Except.error Error.Unauthorized ∧
    Error.unprocessable_entity [("email", "does not exist")] ≠ Error.Unauthorized :=
  login_distinguishes_missing_email dbEmpty dbOne "a@b" "pw" "bad" cfg7 0 userAlice
    (by decide) rfl rfl

end Conduit
